import Mathlib

/-!
Shallow embedding of the query-serving pipeline of the RAG_Finance service
(cache key generation, sliding-window-log rate limiter, Redis cache wrapper,
metrics manager, and the RAG query orchestrator), with theorems settling the
behavioural claims about it.

Conventions of the embedding:
* Python floats (timestamps, scores, latencies) are modelled as rationals.
* Python exceptions are modelled with `Except`: a raising call returns
  `.error msg`, a normal return `.ok v`.
* External collaborators (Redis, the embedding and completion provider, the
  Pinecone index) are modelled as oracle functions supplied in the state or
  environment; their outcomes are unconstrained parameters.
* Python `str.lower` and `str.strip` are modelled character-wise on the
  underlying character list (equivalent on the ASCII data the claims use).
-/

namespace RAGFinance

/-! ### cache.py — cache key generation -/

/-- Python `str.lower` (character-wise lowering; `Char.toLower` agrees on the
ASCII data all claims use). -/
def strLower (s : String) : String := ⟨s.data.map Char.toLower⟩

/-- Python `str.strip` (drop leading and trailing whitespace). -/
def strStrip (s : String) : String :=
  ⟨((s.data.dropWhile Char.isWhitespace).reverse.dropWhile Char.isWhitespace).reverse⟩

/-- `RedisCache.get_cache_key` (cache.py): lower-case and strip the question,
then join with the company under the fixed prefix. -/
def get_cache_key (company question : String) : String :=
  let normalized_question := strStrip (strLower question)
  "financial_rag:" ++ company ++ ":" ++ normalized_question

/-! ### config.py — TTL and rate-limit defaults (env-var defaults) -/

def CACHE_TTL_REALTIME : Nat := 3600

def CACHE_TTL_HISTORICAL : Nat := 86400

def RATE_LIMIT_MAX_REQUESTS : Nat := 100

def RATE_LIMIT_WINDOW_SECONDS : ℚ := 60

/-! ### rate_limiter.py — sliding-window-log rate limiter -/

/-- State of `RateLimiter` (rate_limiter.py): the per-key dict of request
timestamps is a total function, a key absent from the dict mapping to `[]`
(the code initializes a missing key to the empty list before use). -/
structure RateLimiter where
  max_requests : Nat
  window_seconds : ℚ
  requests : String → List ℚ

/-- `RateLimiter.__init__`: empty request log. -/
def RateLimiter.init (max_requests : Nat) (window_seconds : ℚ) : RateLimiter :=
  { max_requests := max_requests, window_seconds := window_seconds,
    requests := fun _ => [] }

/-- The pruning comprehension in `check_rate_limit` / `get_remaining_requests`:
keep exactly the timestamps `t` with `t > current_time - window_seconds`. -/
def prune (window_seconds current_time : ℚ) (ts : List ℚ) : List ℚ :=
  ts.filter (fun t => decide (current_time - window_seconds < t))

/-- `RateLimiter.check_rate_limit` (rate_limiter.py) for one call at
`current_time`: prune the key entry, then allow and append iff under the
limit; on denial the pruned list is still written back. -/
def check_rate_limit (rl : RateLimiter) (api_key : String) (current_time : ℚ) :
    Bool × RateLimiter :=
  let pruned := prune rl.window_seconds current_time (rl.requests api_key)
  if pruned.length < rl.max_requests then
    (true, { rl with requests := Function.update rl.requests api_key (pruned ++ [current_time]) })
  else
    (false, { rl with requests := Function.update rl.requests api_key pruned })

/-- Driver: a sequence of `check_rate_limit` calls on one key at the given
times, collecting the returned booleans and the final state. -/
def runCalls (rl : RateLimiter) (api_key : String) : List ℚ → List Bool × RateLimiter
  | [] => ([], rl)
  | t :: ts =>
    let step := check_rate_limit rl api_key t
    let rest := runCalls step.2 api_key ts
    (step.1 :: rest.1, rest.2)

/-! ### cache.py — the Redis cache wrapper

The Redis backend is an external collaborator: its per-call outcomes are
oracle functions (`backend_get`, `backend_set`) carried in the state, an
`.error` outcome meaning the awaited call raised.  The contents of the
backing store are observed through `store`, the log of successful `setex`
writes (key, ttl, value); a request performs a cache write exactly when it
appends to this log.  Python truthiness of the fetched value is modelled by
`Option`: `some v` is a truthy reply, `none` a null reply. -/

structure RedisCache where
  /-- `self.redis` is non-`None`. -/
  connected : Bool
  /-- Outcome of `await self.connect()` when invoked: raises with this
  message, or succeeds. -/
  connectResult : Except String Unit
  /-- Outcome of `await self.redis.get(key)`. -/
  backend_get : String → Except Unit (Option String)
  /-- Outcome of `await self.redis.setex(key, ttl, value)`. -/
  backend_set : String → Nat → String → Except Unit Unit
  /-- Log of the successful `setex` calls performed so far. -/
  store : List (String × Nat × String)
  cache_hits : Nat
  cache_misses : Nat

/-- The `try` body of `RedisCache.get` (cache.py lines 41–52): a raising
backend get is swallowed and counted as a miss. -/
def RedisCache.getBody (c : RedisCache) (key : String) : Option String × RedisCache :=
  match c.backend_get key with
  | .ok (some v) => (some v, { c with cache_hits := c.cache_hits + 1 })
  | .ok none => (none, { c with cache_misses := c.cache_misses + 1 })
  | .error _ => (none, { c with cache_misses := c.cache_misses + 1 })

/-- `RedisCache.get` (cache.py): lazily connect when no connection exists —
a failing connect raises out of `get` — then run the guarded body. -/
def RedisCache.get (c : RedisCache) (key : String) :
    Except String (Option String) × RedisCache :=
  if c.connected then
    let r := RedisCache.getBody c key
    (.ok r.1, r.2)
  else
    match c.connectResult with
    | .error e => (.error e, c)
    | .ok _ =>
      let r := RedisCache.getBody { c with connected := true } key
      (.ok r.1, r.2)

/-- The `try` body of `RedisCache.set` (cache.py lines 59–64): pick the TTL
by freshness class and swallow any `setex` failure. -/
def RedisCache.setBody (c : RedisCache) (key value : String) (is_real_time : Bool) :
    RedisCache :=
  let ttl := if is_real_time then CACHE_TTL_REALTIME else CACHE_TTL_HISTORICAL
  match c.backend_set key ttl value with
  | .ok _ => { c with store := c.store ++ [(key, ttl, value)] }
  | .error _ => c

/-- `RedisCache.set` (cache.py): lazily connect when no connection exists —
a failing connect raises out of `set` — then run the guarded body. -/
def RedisCache.set (c : RedisCache) (key value : String) (is_real_time : Bool) :
    Except String Unit × RedisCache :=
  if c.connected then
    (.ok (), RedisCache.setBody c key value is_real_time)
  else
    match c.connectResult with
    | .error e => (.error e, c)
    | .ok _ => (.ok (), RedisCache.setBody { c with connected := true } key value is_real_time)

/-- `RedisCache.get_cache_stats` (cache.py): hit ratio over the counters
held by the wrapper; `dbsize` is read as the number of distinct keys ever written
(backend reads are assumed to succeed), `0` when not connected. -/
def RedisCache.get_cache_stats (c : RedisCache) : ℚ × Nat :=
  let total_requests := c.cache_hits + c.cache_misses
  let hit_ratio : ℚ := if 0 < total_requests then (c.cache_hits : ℚ) / (total_requests : ℚ) else 0
  let cache_size := if c.connected then ((c.store.map (fun e => e.1)).dedup).length else 0
  (hit_ratio, cache_size)

/-! ### metrics.py — MetricsManager

The Prometheus histogram keeps a running sum and count of observed
latencies, so the collector state carries `latency_sum` alongside the
internal counters; the live gauge is an integer. -/

structure Metrics where
  concurrent_requests : ℤ
  total_queries : Nat
  cache_hits : Nat
  cache_misses : Nat
  /-- Running sum of the latency histogram observations. -/
  latency_sum : ℚ
  start_time : ℚ

/-- `MetricsManager.__init__`. -/
def Metrics.init (start_time : ℚ) : Metrics :=
  { concurrent_requests := 0, total_queries := 0, cache_hits := 0, cache_misses := 0,
    latency_sum := 0, start_time := start_time }

/-- `MetricsManager.record_query` (metrics.py). -/
def Metrics.record_query (m : Metrics) (_company : String) (latency : ℚ) (cache_hit : Bool) :
    Metrics :=
  { m with
    total_queries := m.total_queries + 1,
    latency_sum := m.latency_sum + latency,
    cache_hits := if cache_hit then m.cache_hits + 1 else m.cache_hits,
    cache_misses := if cache_hit then m.cache_misses else m.cache_misses + 1 }

/-- `MetricsManager.increment_concurrent`. -/
def Metrics.increment_concurrent (m : Metrics) : Metrics :=
  { m with concurrent_requests := m.concurrent_requests + 1 }

/-- `MetricsManager.decrement_concurrent`. -/
def Metrics.decrement_concurrent (m : Metrics) : Metrics :=
  { m with concurrent_requests := m.concurrent_requests - 1 }

/-- `MetricsManager.get_metrics_summary` (metrics.py), read at wall-clock
time `now`. -/
structure MetricsSummary where
  total_queries : Nat
  cache_hits : Nat
  cache_misses : Nat
  cache_hit_ratio : ℚ
  uptime_seconds : ℚ
  queries_per_second : ℚ

def get_metrics_summary (m : Metrics) (now : ℚ) : MetricsSummary :=
  let uptime := now - m.start_time
  let cache_hit_ratio : ℚ := (m.cache_hits : ℚ) / max 1 (m.total_queries : ℚ)
  { total_queries := m.total_queries, cache_hits := m.cache_hits,
    cache_misses := m.cache_misses, cache_hit_ratio := cache_hit_ratio,
    uptime_seconds := uptime,
    queries_per_second := (m.total_queries : ℚ) / max 1 uptime }

/-! ### rag_pipeline.py — the RAG query orchestrator -/

/-- The metadata dict of a Pinecone match; each field read with
`metadata.get(..., default)`, so absent entries are `none`. -/
structure MatchMetadata where
  company : Option String
  report_type : Option String
  report_date : Option String
  content : Option String

/-- One entry of the list returned by `vector_store.query`: the code reads
the metadata dict and the score through dict-get with a default, so both
are optional. Scores are rationals standing for the float similarity. -/
structure RetrievalMatch where
  metadata : Option MatchMetadata
  score : Option ℚ

/-- The labeled block rendered for one match in `_build_context`. -/
def formatMatch (m : RetrievalMatch) : String :=
  let metadata := m.metadata.getD ⟨none, none, none, none⟩
  (metadata.company.getD "Unknown") ++ " " ++ (metadata.report_type.getD "Report") ++
    " (" ++ (metadata.report_date.getD "Unknown date") ++ "):\n" ++ (metadata.content.getD "")

/-- `RAGPipeline._build_context` (rag_pipeline.py): skip every match whose
score is `< 0.7`, render the rest in order, and join with blank lines. -/
def build_context (ms : List RetrievalMatch) : String :=
  let parts := (ms.filter (fun m => decide (¬ m.score.getD 0 < 7/10))).map formatMatch
  String.intercalate "\n\n" parts

/-- The temporal-marker list of `RAGPipeline._is_real_time_query`. -/
def real_time_indicators : List String :=
  ["current", "latest", "now", "today", "present", "recent",
   "this quarter", "this year", "this month", "this week"]

/-- `RAGPipeline._is_real_time_query` (rag_pipeline.py): lower-case the
question and test each indicator for substring occurrence (Python `in`). -/
def is_real_time_query (question : String) : Bool :=
  let question_lower := strLower question
  real_time_indicators.any (fun indicator => decide (indicator.data <:+: question_lower.data))

/-- The answer dict returned by `process_query` (the wall-clock
`latency_seconds` entry is not modelled). -/
structure QueryResult where
  answer : String
  source : String
  error : Option String
deriving DecidableEq

/-- The external provider and index, as seen from one `process_query` call:
`embed` and `generate` may raise (`.error msg`); `vector_store.query`
swallows its own errors and returns a list (empty on failure), so it is
total. `elapsed` stands for the measured wall-clock latency handed to the
metrics recorder. -/
structure PipelineEnv where
  embed : String → Except String (List ℚ)
  vquery : List ℚ → String → List RetrievalMatch
  generate : String → String → Except String String
  elapsed : ℚ

/-- Mutable service state touched by `process_query`. The two call counters
instrument the provider calls so that theorems can speak about how many
embedding / generation calls a request performed. -/
structure PipelineState where
  cache : RedisCache
  metrics : Metrics
  embed_calls : Nat
  generate_calls : Nat

/-- The fixed answer returned when retrieval finds no documents. -/
def insufficientAnswer (company : String) : String :=
  "I don\x27t have enough information about " ++ company ++ " to answer this question."

/-- The fixed answer of the orchestrator-boundary exception handler. -/
def errorAnswer : String :=
  "Sorry, I encountered an error while processing your question."

/-- The `try` body of `RAGPipeline.process_query` (rag_pipeline.py lines
39–111): cache lookup, then on a miss embed → retrieve → build context →
generate → classify freshness → cache write → record metrics.  A raising
step yields `.error (message, state at the raise)`.  The database audit
insert (`_record_query_metrics`) swallows its own exceptions and writes
only to the external audit table, so it is not modelled. -/
def process_query_try (env : PipelineEnv) (st : PipelineState) (company question : String) :
    Except (String × PipelineState) (QueryResult × PipelineState) :=
  let cache_key := get_cache_key company question
  match RedisCache.get st.cache cache_key with
  | (.error e, c') => .error (e, { st with cache := c' })
  | (.ok (some cached_answer), c') =>
    let st := { st with cache := c' }
    let st := { st with metrics := st.metrics.record_query company env.elapsed true }
    .ok ({ answer := cached_answer, source := "cache", error := none }, st)
  | (.ok none, c') =>
    let st := { st with cache := c' }
    let st := { st with embed_calls := st.embed_calls + 1 }
    match env.embed question with
    | .error e => .error (e, st)
    | .ok question_embedding =>
      let ms := env.vquery question_embedding company
      if ms.isEmpty then
        .ok ({ answer := insufficientAnswer company, source := "generated", error := none }, st)
      else
        let context := build_context ms
        let st := { st with generate_calls := st.generate_calls + 1 }
        match env.generate context question with
        | .error e => .error (e, st)
        | .ok answer =>
          let is_real_time := is_real_time_query question
          match RedisCache.set st.cache cache_key answer is_real_time with
          | (.error e, c') => .error (e, { st with cache := c' })
          | (.ok _, c') =>
            let st := { st with cache := c' }
            let st := { st with metrics := st.metrics.record_query company env.elapsed false }
            .ok ({ answer := answer, source := "generated", error := none }, st)

/-- `RAGPipeline.process_query` (rag_pipeline.py): bump the live gauge,
run the body, convert an escaped exception into the error result, and
decrement the gauge in `finally` on every path. -/
def process_query (env : PipelineEnv) (st : PipelineState) (company question _api_key : String) :
    QueryResult × PipelineState :=
  let st := { st with metrics := st.metrics.increment_concurrent }
  match process_query_try env st company question with
  | .ok (res, st') =>
    (res, { st' with metrics := st'.metrics.decrement_concurrent })
  | .error (e, st') =>
    ({ answer := errorAnswer, source := "error", error := some e },
     { st' with metrics := st'.metrics.decrement_concurrent })

/-- Driver: a batch of queries processed to completion one after another
(each triple is company, question, api key). -/
def runQueries (env : PipelineEnv) : PipelineState → List (String × String × String) →
    PipelineState
  | st, [] => st
  | st, q :: qs => runQueries env (process_query env st q.1 q.2.1 q.2.2).2 qs

/-! ### api.py — the /metrics endpoint -/

/-- The response dict assembled by `get_metrics` (api.py lines 177–195). -/
structure MetricsResponse where
  query_count : Nat
  cache_hit_ratio : ℚ
  concurrent_requests : ℤ
  average_latency : ℚ
  cache_size : Nat

/-- `get_metrics` (api.py): combine the metrics summary with the cache
stats; note the `average_latency` entry is read from the summary key
`queries_per_second`. -/
def get_metrics (m : Metrics) (c : RedisCache) (now : ℚ) : MetricsResponse :=
  let metrics_summary := get_metrics_summary m now
  let cache_stats := RedisCache.get_cache_stats c
  { query_count := metrics_summary.total_queries,
    cache_hit_ratio := cache_stats.1,
    concurrent_requests := m.concurrent_requests,
    average_latency := metrics_summary.queries_per_second,
    cache_size := cache_stats.2 }

/-! ### Concrete fixtures for counterexamples and witnesses -/

/-- A connected cache whose backend always replies null and accepts writes. -/
def okCache : RedisCache :=
  { connected := true, connectResult := .ok (),
    backend_get := fun _ => .ok none,
    backend_set := fun _ _ _ => .ok (),
    store := [], cache_hits := 0, cache_misses := 0 }

/-- A cache with no connection whose connect attempt raises (backend down). -/
def downCache : RedisCache :=
  { okCache with connected := false, connectResult := .error "Redis connection error" }

/-- Fresh service state over `okCache`. -/
def state0 : PipelineState :=
  { cache := okCache, metrics := Metrics.init 0, embed_calls := 0, generate_calls := 0 }

/-- Fresh service state over the unreachable cache. -/
def stateDown : PipelineState := { state0 with cache := downCache }

/-- A retrieval match whose similarity score is 0.65, below the 0.70 floor. -/
def lowMatch : RetrievalMatch :=
  { metadata := some ⟨some "Apple", some "Annual Report", some "2024-01-01", some "revenue text"⟩,
    score := some (65/100) }

/-- Environment whose retrieval returns only `lowMatch` and whose provider
calls succeed. -/
def envLow : PipelineEnv :=
  { embed := fun _ => .ok [], vquery := fun _ _ => [lowMatch],
    generate := fun _ _ => .ok "GEN", elapsed := 0 }

/-- Environment whose retrieval returns no matches. -/
def envEmptyRetrieval : PipelineEnv := { envLow with vquery := fun _ _ => [] }

/-- Environment whose embedding call raises. -/
def envEmbedFail : PipelineEnv := { envLow with embed := fun _ => .error "embed boom" }

/-- Environment whose generation call raises. -/
def envGenFail : PipelineEnv := { envLow with generate := fun _ _ => .error "gen boom" }

/-- Metrics state after one recorded query of latency 3 (started at time 0). -/
def m1 : Metrics := (Metrics.init 0).record_query "Apple" 3 false

/-- A connected cache whose backend raises on every get and set. -/
def flakyCache : RedisCache :=
  { okCache with backend_get := fun _ => .error (), backend_set := fun _ _ _ => .error () }

/-- Fresh service state over the raising-backend cache. -/
def stateFlaky : PipelineState := { state0 with cache := flakyCache }

/-! ## Helper lemmas -/

/-- Pruning is the identity on a log whose entries all lie inside the
trailing window. -/
theorem prune_eq_self (w now : ℚ) (ts : List ℚ) (h : ∀ t ∈ ts, now - w < t) :
    prune w now ts = ts := by
  simp only [prune, List.filter_eq_self, decide_eq_true_eq]
  exact h

/-- A run of `check_rate_limit` calls that all fit into the window on top of
an in-window log: every call is allowed and appends its timestamp in order;
the limit and window fields are untouched. -/
theorem runCalls_all_within (key : String) (T w : ℚ) :
    ∀ (times : List ℚ) (rl : RateLimiter),
      rl.window_seconds = w →
      (rl.requests key).length + times.length ≤ rl.max_requests →
      (∀ t ∈ rl.requests key, T - w < t) →
      (∀ t ∈ times, T - w < t ∧ t ≤ T) →
      (runCalls rl key times).1 = List.replicate times.length true ∧
      (runCalls rl key times).2.requests key = rl.requests key ++ times ∧
      (runCalls rl key times).2.max_requests = rl.max_requests ∧
      (runCalls rl key times).2.window_seconds = rl.window_seconds := by
  intro times
  induction times with
  | nil => intro rl _ _ _ _; simp [runCalls]
  | cons t ts ih =>
    intro rl hw hlen hcur htimes
    have ht := htimes t (by simp)
    have hprune : prune rl.window_seconds t (rl.requests key) = rl.requests key := by
      apply prune_eq_self
      intro s hs
      have h1 := hcur s hs
      have h2 : t - rl.window_seconds ≤ T - w := by rw [hw]; linarith [ht.2]
      linarith
    have hlt : (rl.requests key).length < rl.max_requests := by
      simp at hlen
      omega
    have hstep : check_rate_limit rl key t =
        (true, { rl with requests := Function.update rl.requests key (rl.requests key ++ [t]) }) := by
      simp [check_rate_limit, prune_eq_self, hprune, hlt]
    have ih' := ih { rl with requests := Function.update rl.requests key (rl.requests key ++ [t]) }
      (by simpa using hw)
      (by simp [Function.update_same]; simp at hlen; omega)
      (by
        simp only [Function.update_same]
        intro s hs
        rcases List.mem_append.mp hs with h | h
        · exact hcur s h
        · simp at h; subst h; exact ht.1)
      (fun s hs => htimes s (by simp [hs]))
    refine ⟨?_, ?_, ?_, ?_⟩
    · simp only [runCalls, hstep]
      simp [ih'.1, List.replicate_succ]
    · simp only [runCalls, hstep]
      have := ih'.2.1
      simp only [Function.update_same] at this
      simp [this]
    · simp only [runCalls, hstep]; exact ih'.2.2.1
    · simp only [runCalls, hstep]; exact ih'.2.2.2

/-- The gauge decrement in `finally` cancels the increment on entry. -/
theorem Metrics.dec_inc (m : Metrics) :
    m.increment_concurrent.decrement_concurrent = m := by
  cases m
  simp [Metrics.increment_concurrent, Metrics.decrement_concurrent]

/-- Recording a query in between does not disturb the cancellation. -/
theorem Metrics.dec_record_inc (m : Metrics) (co : String) (l : ℚ) (h : Bool) :
    ((m.increment_concurrent.record_query co l h).decrement_concurrent) =
      m.record_query co l h := by
  cases m
  simp [Metrics.increment_concurrent, Metrics.decrement_concurrent, Metrics.record_query]

/-- On a connected cache, a null backend reply and a raising backend get
produce the same outcome: a miss. -/
theorem get_miss_of_backend (c : RedisCache) (ck : String) (hconn : c.connected = true)
    (h : c.backend_get ck = .ok none ∨ c.backend_get ck = .error ()) :
    RedisCache.get c ck = (.ok none, { c with cache_misses := c.cache_misses + 1 }) := by
  rcases h with h | h <;> simp [RedisCache.get, RedisCache.getBody, hconn, h]

/-- Path: cache hit. -/
theorem process_query_hit (env : PipelineEnv) (st : PipelineState)
    (company question api_key v : String)
    (hget : RedisCache.get st.cache (get_cache_key company question) =
      (.ok (some v), { st.cache with cache_hits := st.cache.cache_hits + 1 })) :
    process_query env st company question api_key =
      ({ answer := v, source := "cache", error := none },
       { st with cache := { st.cache with cache_hits := st.cache.cache_hits + 1 },
                 metrics := st.metrics.record_query company env.elapsed true }) := by
  simp only [process_query, process_query_try, hget, Metrics.dec_record_inc]

/-- Path: the lazy connect inside the cache `get` raises; the orchestrator
boundary turns it into the error result and the state is untouched. -/
theorem process_query_connect_fail (env : PipelineEnv) (st : PipelineState)
    (company question api_key e : String)
    (hconn : st.cache.connected = false)
    (hcr : st.cache.connectResult = .error e) :
    process_query env st company question api_key =
      ({ answer := errorAnswer, source := "error", error := some e }, st) := by
  simp only [process_query, process_query_try, RedisCache.get, hconn, hcr,
    Bool.false_eq_true, if_false, Metrics.dec_inc]

/-- Path: miss, and retrieval returns no matches. -/
theorem process_query_miss_empty (env : PipelineEnv) (st : PipelineState)
    (company question api_key : String) (emb : List ℚ)
    (hget : RedisCache.get st.cache (get_cache_key company question) =
      (.ok none, { st.cache with cache_misses := st.cache.cache_misses + 1 }))
    (hemb : env.embed question = .ok emb)
    (hv : env.vquery emb company = []) :
    process_query env st company question api_key =
      ({ answer := insufficientAnswer company, source := "generated", error := none },
       { st with cache := { st.cache with cache_misses := st.cache.cache_misses + 1 },
                 embed_calls := st.embed_calls + 1 }) := by
  simp only [process_query, process_query_try, hget, hemb, hv, List.isEmpty_nil, if_true,
    Metrics.dec_inc]

/-- Path: miss, and the embedding call raises. -/
theorem process_query_embed_raises (env : PipelineEnv) (st : PipelineState)
    (company question api_key e : String)
    (hget : RedisCache.get st.cache (get_cache_key company question) =
      (.ok none, { st.cache with cache_misses := st.cache.cache_misses + 1 }))
    (hemb : env.embed question = .error e) :
    process_query env st company question api_key =
      ({ answer := errorAnswer, source := "error", error := some e },
       { st with cache := { st.cache with cache_misses := st.cache.cache_misses + 1 },
                 embed_calls := st.embed_calls + 1 }) := by
  simp only [process_query, process_query_try, hget, hemb, Metrics.dec_inc]

/-- Path: miss, retrieval nonempty, and the generation call raises. -/
theorem process_query_generate_raises (env : PipelineEnv) (st : PipelineState)
    (company question api_key e : String) (emb : List ℚ)
    (m : RetrievalMatch) (rest : List RetrievalMatch)
    (hget : RedisCache.get st.cache (get_cache_key company question) =
      (.ok none, { st.cache with cache_misses := st.cache.cache_misses + 1 }))
    (hemb : env.embed question = .ok emb)
    (hv : env.vquery emb company = m :: rest)
    (hgen : env.generate (build_context (m :: rest)) question = .error e) :
    process_query env st company question api_key =
      ({ answer := errorAnswer, source := "error", error := some e },
       { st with cache := { st.cache with cache_misses := st.cache.cache_misses + 1 },
                 embed_calls := st.embed_calls + 1,
                 generate_calls := st.generate_calls + 1 }) := by
  simp only [process_query, process_query_try, hget, hemb, hv, List.isEmpty_cons,
    Bool.false_eq_true, if_false, hgen, Metrics.dec_inc]

/-- Path: miss, retrieval nonempty, generation succeeds; the answer is
cached through `set` (whose own body also swallows backend failures) and
the result is the generated answer. -/
theorem process_query_generated (env : PipelineEnv) (st : PipelineState)
    (company question api_key answer : String) (emb : List ℚ)
    (m : RetrievalMatch) (rest : List RetrievalMatch)
    (hget : RedisCache.get st.cache (get_cache_key company question) =
      (.ok none, { st.cache with cache_misses := st.cache.cache_misses + 1 }))
    (hemb : env.embed question = .ok emb)
    (hv : env.vquery emb company = m :: rest)
    (hgen : env.generate (build_context (m :: rest)) question = .ok answer)
    (hconn' : st.cache.connected = true) :
    process_query env st company question api_key =
      ({ answer := answer, source := "generated", error := none },
       { st with cache := RedisCache.setBody
                   { st.cache with cache_misses := st.cache.cache_misses + 1 }
                   (get_cache_key company question) answer (is_real_time_query question),
                 metrics := st.metrics.record_query company env.elapsed false,
                 embed_calls := st.embed_calls + 1,
                 generate_calls := st.generate_calls + 1 }) := by
  simp only [process_query, process_query_try, hget, hemb, hv, List.isEmpty_cons,
    Bool.false_eq_true, if_false, hgen, RedisCache.set, hconn', if_true,
    Metrics.dec_record_inc]

/-- Concatenation of strings acts as concatenation of their character
lists. -/
theorem string_append_data (a b : String) : (a ++ b).data = a.data ++ b.data := by
  cases a; cases b; rfl

/-- Strings with equal character lists are equal. -/
theorem string_eq_of_data (a b : String) (h : a.data = b.data) : a = b := by
  cases a; cases b; exact congrArg String.mk h

/-- When every match scores below the 0.70 floor, the assembled context is
the empty string (no short-circuit signal distinguishes it). -/
theorem build_context_all_low (ms : List RetrievalMatch)
    (h : ∀ m ∈ ms, m.score.getD 0 < 7/10) :
    build_context ms = "" := by
  have hnil : ms.filter (fun m => decide (¬ m.score.getD 0 < 7/10)) = [] := by
    rw [List.filter_eq_nil_iff]
    intro a ha
    simp only [decide_eq_true_eq, not_not]
    exact h a ha
  show String.intercalate "\n\n"
    ((ms.filter (fun m => decide (¬ m.score.getD 0 < 7/10))).map formatMatch) = ""
  rw [hnil]
  rfl

/-- Recording a query leaves the live gauge untouched. -/
theorem Metrics.record_query_gauge (m : Metrics) (co : String) (l : ℚ) (h : Bool) :
    (m.record_query co l h).concurrent_requests = m.concurrent_requests := rfl

/-- The try body of `process_query` never touches the live gauge, on any
path, raising or not. -/
theorem process_query_try_gauge (env : PipelineEnv) (st : PipelineState)
    (company question : String)
    (r : Except (String × PipelineState) (QueryResult × PipelineState))
    (h : process_query_try env st company question = r) :
    (match r with
     | .ok (_, s) => s.metrics.concurrent_requests
     | .error (_, s) => s.metrics.concurrent_requests) =
      st.metrics.concurrent_requests := by
  unfold process_query_try at h
  cases hg : RedisCache.get st.cache (get_cache_key company question) with
  | mk ge gc =>
    simp only [hg] at h
    cases ge with
    | error e0 => cases h; rfl
    | ok vo =>
      cases vo with
      | some v => cases h; rfl
      | none =>
        cases he : env.embed question with
        | error e1 => simp only [he] at h; cases h; rfl
        | ok emb =>
          simp only [he] at h
          cases hv : (env.vquery emb company).isEmpty with
          | true => simp only [hv, if_true] at h; cases h; rfl
          | false =>
            simp only [hv, Bool.false_eq_true, if_false] at h
            cases hgen : env.generate (build_context (env.vquery emb company)) question with
            | error e2 => simp only [hgen] at h; cases h; rfl
            | ok ans =>
              simp only [hgen] at h
              cases hs : RedisCache.set gc (get_cache_key company question) ans
                  (is_real_time_query question) with
              | mk se sc =>
                simp only [hs] at h
                cases se with
                | error e3 => cases h; rfl
                | ok u => cases h; rfl

/-- Every single `process_query` call, on every exit path, leaves the live
gauge where it started. -/
theorem process_query_gauge (env : PipelineEnv) (st : PipelineState)
    (company question api_key : String) :
    (process_query env st company question api_key).2.metrics.concurrent_requests =
      st.metrics.concurrent_requests := by
  unfold process_query
  cases hh : process_query_try env
      { st with metrics := st.metrics.increment_concurrent } company question with
  | ok r =>
    cases r with
    | mk res st' =>
      have hb := process_query_try_gauge env
        { st with metrics := st.metrics.increment_concurrent } company question
        (.ok (res, st')) hh
      simp only [Metrics.increment_concurrent] at hb
      simp only [hh, Metrics.decrement_concurrent, hb]
      omega
  | error r =>
    cases r with
    | mk e st' =>
      have hb := process_query_try_gauge env
        { st with metrics := st.metrics.increment_concurrent } company question
        (.error (e, st')) hh
      simp only [Metrics.increment_concurrent] at hb
      simp only [hh, Metrics.decrement_concurrent, hb]
      omega

/-! ## Claims -/

/-- C2: for any tenant key and any fixed window, the first `max_requests`
calls to `check_rate_limit` all return allowed and each appends its
timestamp, the `(max_requests+1)`-th call inside the same window returns
denied and appends nothing, and pruning removes exactly the timestamps at
or before `now - window_seconds` (keeps exactly those inside the trailing
window) before the length test. -/
theorem C2_sliding_window_log (max_requests : Nat) (w : ℚ) (key : String) (times : List ℚ)
    (t_extra now : ℚ) (ts : List ℚ) (t : ℚ)
    (hlen : times.length = max_requests)
    (hwin : ∀ s ∈ times, t_extra - w < s ∧ s ≤ t_extra) :
    (runCalls (RateLimiter.init max_requests w) key times).1 =
      List.replicate max_requests true ∧
    (runCalls (RateLimiter.init max_requests w) key times).2.requests key = times ∧
    (check_rate_limit (runCalls (RateLimiter.init max_requests w) key times).2 key t_extra).1 =
      false ∧
    (check_rate_limit (runCalls (RateLimiter.init max_requests w) key times).2
        key t_extra).2.requests key = times ∧
    (t ∈ prune w now ts ↔ t ∈ ts ∧ ¬ t ≤ now - w) := by
  obtain ⟨h1, h2, h3, h4⟩ :=
    runCalls_all_within key t_extra w times (RateLimiter.init max_requests w) rfl
      (by simp [RateLimiter.init, hlen]) (by simp [RateLimiter.init]) hwin
  have h2' : (runCalls (RateLimiter.init max_requests w) key times).2.requests key = times := by
    rw [h2]; simp [RateLimiter.init]
  have h3' : (runCalls (RateLimiter.init max_requests w) key times).2.max_requests =
      max_requests := h3.trans rfl
  have h4' : (runCalls (RateLimiter.init max_requests w) key times).2.window_seconds = w :=
    h4.trans rfl
  have hpr2 : prune w t_extra times = times := by
    apply prune_eq_self
    intro s hs
    exact (hwin s hs).1
  refine ⟨by rw [h1, hlen], h2', ?_, ?_, ?_⟩
  · simp only [check_rate_limit, h4', h2', h3', hpr2, hlen]
    simp
  · simp only [check_rate_limit, h4', h2', h3', hpr2, hlen]
    simp [Function.update_same]
  · simp [prune, List.mem_filter, not_le]

/-- C2 witness: limit 2 per 60 seconds, calls at times 0 and 1 allowed,
the third call at time 2 denied with the log unchanged; the prune
characterization instantiated at time 5 over the log `[-100, 3]`. -/
theorem C2_sliding_window_log_witness :
    (([(0:ℚ), 1].length = 2 ∧ ∀ s ∈ [(0:ℚ), 1], (2:ℚ) - 60 < s ∧ s ≤ 2) ∧
    ((runCalls (RateLimiter.init 2 60) "k" [0, 1]).1 = List.replicate 2 true ∧
     (runCalls (RateLimiter.init 2 60) "k" [0, 1]).2.requests "k" = [0, 1] ∧
     (check_rate_limit (runCalls (RateLimiter.init 2 60) "k" [0, 1]).2 "k" 2).1 = false ∧
     (check_rate_limit (runCalls (RateLimiter.init 2 60) "k" [0, 1]).2 "k" 2).2.requests "k" =
       [0, 1] ∧
     ((3:ℚ) ∈ prune 60 5 [-100, 3] ↔ (3:ℚ) ∈ [(-100:ℚ), 3] ∧ ¬ (3:ℚ) ≤ 5 - 60))) :=
  ⟨⟨by norm_num, by norm_num⟩,
   C2_sliding_window_log 2 60 "k" [0, 1] 2 5 [-100, 3] 3 (by norm_num) (by norm_num)⟩

/-- C10: the cache key joins company and normalized question with `:` while
the company may itself contain `:`, so two different companies can collide
on the same key — `("a:b", "c")` and `("a", "b:c")` map to one key. -/
theorem C10_cache_key_collision :
    get_cache_key "a:b" "c" = get_cache_key "a" "b:c" ∧ ("a:b" : String) ≠ "a" := by
  constructor
  · rfl
  · decide

/-- C4 counterexample: changing only the letter case of the company changes
the key — the company component is not case-normalized, refuting the claim
that case changes to either component leave the key unchanged. -/
theorem C4_counterexample :
    get_cache_key "Apple" "What is Revenue?" ≠ get_cache_key "apple" "What is Revenue?" := by
  decide

/-- C4 (amended): the key is deterministic in the company (verbatim) and
the lower-cased/stripped question: case or edge-whitespace changes to the
question leave the key unchanged (in particular on the spec example pair),
and distinct companies with identical question text give distinct keys;
but case changes to the company change the key. -/
theorem C4_cache_key_normalization :
    (∀ company q₁ q₂ : String, strStrip (strLower q₁) = strStrip (strLower q₂) →
      get_cache_key company q₁ = get_cache_key company q₂) ∧
    get_cache_key "Apple" "What is Revenue?" = get_cache_key "Apple" " what is revenue? " ∧
    (∀ c₁ c₂ q : String, c₁ ≠ c₂ → get_cache_key c₁ q ≠ get_cache_key c₂ q) ∧
    get_cache_key "Apple" "q" ≠ get_cache_key "apple" "q" := by
  refine ⟨?_, by decide, ?_, by decide⟩
  · intro company q₁ q₂ h
    simp [get_cache_key, h]
  · intro c₁ c₂ q hne he
    apply hne
    have hd := congrArg String.data he
    simp only [get_cache_key, string_append_data] at hd
    apply string_eq_of_data
    have h1 := List.append_cancel_right hd
    have h2 := List.append_cancel_right h1
    exact List.append_cancel_left h2

/-- C4 witness: normalization invariance applied at `("A", "X ", " x")` and
company distinctness applied at `("A", "B", "q")`. -/
theorem C4_cache_key_normalization_witness :
    (strStrip (strLower "X ") = strStrip (strLower " x") ∧
      get_cache_key "A" "X " = get_cache_key "A" " x") ∧
    (("A" : String) ≠ "B" ∧ get_cache_key "A" "q" ≠ get_cache_key "B" "q") :=
  ⟨⟨by decide, C4_cache_key_normalization.1 "A" "X " " x" (by decide)⟩,
   ⟨by decide, C4_cache_key_normalization.2.2.1 "A" "B" "q" (by decide)⟩⟩

/-- C9: the `/metrics` endpoint fills `average_latency` with the summary
entry `queries_per_second`, not with the average latency of recorded
queries: after one query of latency 3 recorded and 10 seconds of uptime the
endpoint reports `average_latency = 1/10` while the recorded average
latency is `3`. -/
theorem C9_average_latency_is_queries_per_second :
    (get_metrics m1 okCache 10).average_latency = 1/10 ∧
    m1.total_queries = 1 ∧ m1.latency_sum = 3 ∧
    (get_metrics m1 okCache 10).average_latency ≠ m1.latency_sum / (m1.total_queries : ℚ) := by
  refine ⟨?_, rfl, ?_, ?_⟩ <;>
    norm_num [get_metrics, get_metrics_summary, m1, Metrics.init, Metrics.record_query]

/-- C8: every `process_query` call increments the live gauge on entry and
decrements it on every exit path, so one call — and hence any completed
batch of queries — leaves the gauge exactly where it started. -/
theorem C8_concurrency_gauge_balanced :
    (∀ (env : PipelineEnv) (st : PipelineState) (company question api_key : String),
      (process_query env st company question api_key).2.metrics.concurrent_requests =
        st.metrics.concurrent_requests) ∧
    (∀ (env : PipelineEnv) (st : PipelineState) (queries : List (String × String × String)),
      (runQueries env st queries).metrics.concurrent_requests =
        st.metrics.concurrent_requests) := by
  refine ⟨fun env st c q k => process_query_gauge env st c q k, ?_⟩
  intro env st queries
  induction queries generalizing st with
  | nil => rfl
  | cons q qs ih =>
    show (runQueries env (process_query env st q.1 q.2.1 q.2.2).2 qs).metrics.concurrent_requests =
      st.metrics.concurrent_requests
    rw [ih, process_query_gauge]

/-- C3 counterexample: with empty retrieval, the returned source field is
the string "generated", not an insufficient-info member of the source
enumeration. -/
theorem C3_counterexample :
    (process_query envEmptyRetrieval state0 "Apple" "q" "k").1.source = "generated" ∧
    (process_query envEmptyRetrieval state0 "Apple" "q" "k").1.source ≠ "insufficient-info" ∧
    (process_query envEmptyRetrieval state0 "Apple" "q" "k").1.answer =
      insufficientAnswer "Apple" ∧
    (process_query envEmptyRetrieval state0 "Apple" "q" "k").2.cache.store = [] := by
  have h := process_query_miss_empty envEmptyRetrieval state0 "Apple" "q" "k" [] rfl rfl rfl
  refine ⟨by rw [h], by rw [h]; decide, by rw [h], by rw [h]; rfl⟩

/-- C3 (amended): when vector search returns no matches, `process_query`
returns a terminal result carrying the fixed insufficient-information
answer text, but its source field is "generated" — the code has no
distinct insufficient-info source value — with no error detail, and the
result is not written to the cache. -/
theorem C3_empty_retrieval_result (env : PipelineEnv) (st : PipelineState)
    (company question api_key : String) (emb : List ℚ)
    (hget : RedisCache.get st.cache (get_cache_key company question) =
      (.ok none, { st.cache with cache_misses := st.cache.cache_misses + 1 }))
    (hemb : env.embed question = .ok emb)
    (hv : env.vquery emb company = []) :
    (process_query env st company question api_key).1 =
      { answer := insufficientAnswer company, source := "generated", error := none } ∧
    (process_query env st company question api_key).2.cache.store = st.cache.store := by
  rw [process_query_miss_empty env st company question api_key emb hget hemb hv]
  exact ⟨rfl, rfl⟩

/-- C3 witness: the amended statement instantiated on the fresh service
state and the empty-retrieval environment. -/
theorem C3_empty_retrieval_result_witness :
    (RedisCache.get state0.cache (get_cache_key "Apple" "q") =
      (.ok none, { state0.cache with cache_misses := state0.cache.cache_misses + 1 }) ∧
     envEmptyRetrieval.embed "q" = .ok [] ∧
     envEmptyRetrieval.vquery [] "Apple" = []) ∧
    ((process_query envEmptyRetrieval state0 "Apple" "q" "k").1 =
      { answer := insufficientAnswer "Apple", source := "generated", error := none } ∧
     (process_query envEmptyRetrieval state0 "Apple" "q" "k").2.cache.store =
       state0.cache.store) :=
  ⟨⟨rfl, rfl, rfl⟩,
   C3_empty_retrieval_result envEmptyRetrieval state0 "Apple" "q" "k" [] rfl rfl rfl⟩

/-- C1 counterexample: a query whose only retrieval match scores 0.65
(below the 0.70 floor) is not short-circuited: the generation call runs
(counter 1), its answer — not the fixed insufficient-information text — is
returned, and the result is written to the cache. -/
theorem C1_counterexample :
    lowMatch.score = some (65/100) ∧ (65/100 : ℚ) < 7/10 ∧
    (process_query envLow state0 "Apple" "q" "k").1.answer = "GEN" ∧
    (process_query envLow state0 "Apple" "q" "k").1.answer ≠ insufficientAnswer "Apple" ∧
    (process_query envLow state0 "Apple" "q" "k").2.generate_calls = 1 ∧
    (process_query envLow state0 "Apple" "q" "k").2.cache.store =
      [(get_cache_key "Apple" "q", CACHE_TTL_HISTORICAL, "GEN")] := by
  have h := process_query_generated envLow state0 "Apple" "q" "k" "GEN" [] lowMatch []
    rfl rfl rfl rfl rfl
  have hq : is_real_time_query "q" = false := by decide
  refine ⟨rfl, by norm_num, by rw [h], by rw [h]; decide, by rw [h]; rfl, ?_⟩
  rw [h]
  simp [RedisCache.setBody, state0, okCache, hq]

/-- C1 (amended): the short-circuit — fixed insufficient-information
answer, no generation call, no cache write — happens exactly when vector
search returns no matches at all; when matches exist but all score below
0.70 the filtered context is the empty string, yet generation is still
called (with that empty context) and on success the result is cached. -/
theorem C1_short_circuit_only_on_empty_retrieval :
    (∀ (env : PipelineEnv) (st : PipelineState) (company question api_key : String)
        (emb : List ℚ),
      RedisCache.get st.cache (get_cache_key company question) =
        (.ok none, { st.cache with cache_misses := st.cache.cache_misses + 1 }) →
      env.embed question = .ok emb →
      env.vquery emb company = [] →
      (process_query env st company question api_key).1.answer = insufficientAnswer company ∧
      (process_query env st company question api_key).2.generate_calls = st.generate_calls ∧
      (process_query env st company question api_key).2.cache.store = st.cache.store) ∧
    (∀ (env : PipelineEnv) (st : PipelineState) (company question api_key answer : String)
        (emb : List ℚ) (m : RetrievalMatch) (rest : List RetrievalMatch),
      RedisCache.get st.cache (get_cache_key company question) =
        (.ok none, { st.cache with cache_misses := st.cache.cache_misses + 1 }) →
      env.embed question = .ok emb →
      env.vquery emb company = m :: rest →
      (∀ x ∈ m :: rest, x.score.getD 0 < 7/10) →
      env.generate "" question = .ok answer →
      st.cache.connected = true →
      st.cache.backend_set (get_cache_key company question)
        (if is_real_time_query question then CACHE_TTL_REALTIME else CACHE_TTL_HISTORICAL)
        answer = .ok () →
      build_context (m :: rest) = "" ∧
      (process_query env st company question api_key).1.source = "generated" ∧
      (process_query env st company question api_key).1.answer = answer ∧
      (process_query env st company question api_key).2.generate_calls =
        st.generate_calls + 1 ∧
      (process_query env st company question api_key).2.cache.store = st.cache.store ++
        [(get_cache_key company question,
          if is_real_time_query question then CACHE_TTL_REALTIME else CACHE_TTL_HISTORICAL,
          answer)]) := by
  constructor
  · intro env st company question api_key emb hget hemb hv
    rw [process_query_miss_empty env st company question api_key emb hget hemb hv]
    exact ⟨rfl, rfl, rfl⟩
  · intro env st company question api_key answer emb m rest hget hemb hv hlow hgen hconn hset
    have hctx : build_context (m :: rest) = "" := build_context_all_low _ hlow
    have hgen' : env.generate (build_context (m :: rest)) question = .ok answer := by
      rw [hctx]; exact hgen
    have h := process_query_generated env st company question api_key answer emb m rest
      hget hemb hv hgen' hconn
    refine ⟨hctx, by rw [h], by rw [h], by rw [h], ?_⟩
    rw [h]
    simp [RedisCache.setBody, hset]

/-- C1 witness: the empty-retrieval part on the fresh state, and the
all-low-scores part on the 0.65 match. -/
theorem C1_short_circuit_only_on_empty_retrieval_witness :
    ((process_query envEmptyRetrieval state0 "Apple" "q2" "k").1.answer =
       insufficientAnswer "Apple" ∧
     (process_query envEmptyRetrieval state0 "Apple" "q2" "k").2.generate_calls =
       state0.generate_calls ∧
     (process_query envEmptyRetrieval state0 "Apple" "q2" "k").2.cache.store =
       state0.cache.store) ∧
    ((∀ x ∈ [lowMatch], x.score.getD 0 < 7/10) ∧
     build_context [lowMatch] = "" ∧
     (process_query envLow state0 "Apple" "q2" "k").1.source = "generated" ∧
     (process_query envLow state0 "Apple" "q2" "k").2.generate_calls =
       state0.generate_calls + 1 ∧
     (process_query envLow state0 "Apple" "q2" "k").2.cache.store = state0.cache.store ++
       [(get_cache_key "Apple" "q2",
         if is_real_time_query "q2" then CACHE_TTL_REALTIME else CACHE_TTL_HISTORICAL,
         "GEN")]) := by
  have hlow : ∀ x ∈ [lowMatch], x.score.getD 0 < 7/10 := by
    intro x hx
    rw [List.mem_singleton] at hx
    subst hx
    norm_num [lowMatch]
  have h1 := C1_short_circuit_only_on_empty_retrieval.1 envEmptyRetrieval state0
    "Apple" "q2" "k" [] rfl rfl rfl
  have h2 := C1_short_circuit_only_on_empty_retrieval.2 envLow state0
    "Apple" "q2" "k" "GEN" [] lowMatch [] rfl rfl rfl hlow rfl rfl rfl
  exact ⟨h1, hlow, h2.1, h2.2.1, h2.2.2.2.1, h2.2.2.2.2⟩

/-- C5 counterexample: when no connection exists and the backend is
unavailable, the lazy connect inside `get` raises, the exception escapes to
the orchestrator boundary, and the query returns source "error" — not the
plain-miss outcome the claim promises for every backend failure. -/
theorem C5_counterexample :
    RedisCache.get stateDown.cache (get_cache_key "Apple" "q") =
      (.error "Redis connection error", stateDown.cache) ∧
    (process_query envLow stateDown "Apple" "q" "k").1.source = "error" ∧
    (process_query envLow stateDown "Apple" "q" "k").1.source ≠ "generated" ∧
    (process_query envLow stateDown "Apple" "q" "k").1.error =
      some "Redis connection error" := by
  have h := process_query_connect_fail envLow stateDown "Apple" "q" "k"
    "Redis connection error" rfl rfl
  refine ⟨rfl, by rw [h], by rw [h]; decide, by rw [h]⟩

/-- C5 (amended): once a connection object exists, a raising backend get is
swallowed and treated exactly as a miss — the pipeline proceeds to
regenerate, a failing backend set is likewise swallowed, and the returned
result is the plain-miss one (source "generated", no error, no cache
write); only when no connection exists and connecting itself fails does the
exception escape and the query return source "error". -/
theorem C5_cache_failure_treated_as_miss (env : PipelineEnv) (st : PipelineState)
    (company question api_key ans : String) (emb : List ℚ)
    (m : RetrievalMatch) (rest : List RetrievalMatch)
    (hconn : st.cache.connected = true)
    (hget : st.cache.backend_get (get_cache_key company question) = .error ())
    (hemb : env.embed question = .ok emb)
    (hv : env.vquery emb company = m :: rest)
    (hgen : env.generate (build_context (m :: rest)) question = .ok ans)
    (hsetfail : ∀ (n : Nat) (v : String),
      st.cache.backend_set (get_cache_key company question) n v = .error ()) :
    RedisCache.get st.cache (get_cache_key company question) =
      (.ok none, { st.cache with cache_misses := st.cache.cache_misses + 1 }) ∧
    (process_query env st company question api_key).1.source = "generated" ∧
    (process_query env st company question api_key).1.answer = ans ∧
    (process_query env st company question api_key).1.error = none ∧
    (process_query env st company question api_key).2.cache.store = st.cache.store := by
  have hmiss := get_miss_of_backend st.cache (get_cache_key company question) hconn
    (Or.inr hget)
  have h := process_query_generated env st company question api_key ans emb m rest
    hmiss hemb hv hgen hconn
  refine ⟨hmiss, by rw [h], by rw [h], by rw [h], ?_⟩
  rw [h]
  simp [RedisCache.setBody, hsetfail]

/-- C5 witness: the amended statement on the raising-backend cache. -/
theorem C5_cache_failure_treated_as_miss_witness :
    (stateFlaky.cache.connected = true ∧
     stateFlaky.cache.backend_get (get_cache_key "Apple" "q") = .error () ∧
     envLow.embed "q" = .ok [] ∧
     envLow.vquery [] "Apple" = [lowMatch] ∧
     envLow.generate (build_context [lowMatch]) "q" = .ok "GEN") ∧
    (RedisCache.get stateFlaky.cache (get_cache_key "Apple" "q") =
      (.ok none, { stateFlaky.cache with
        cache_misses := stateFlaky.cache.cache_misses + 1 }) ∧
     (process_query envLow stateFlaky "Apple" "q" "k").1.source = "generated" ∧
     (process_query envLow stateFlaky "Apple" "q" "k").1.answer = "GEN" ∧
     (process_query envLow stateFlaky "Apple" "q" "k").1.error = none ∧
     (process_query envLow stateFlaky "Apple" "q" "k").2.cache.store =
       stateFlaky.cache.store) :=
  ⟨⟨rfl, rfl, rfl, rfl, rfl⟩,
   C5_cache_failure_treated_as_miss envLow stateFlaky "Apple" "q" "k" "GEN" []
     lowMatch [] rfl rfl rfl rfl rfl (fun _ _ => rfl)⟩

/-- C6: a raising embedding or generation call is caught at the
orchestrator boundary: the query returns the fixed error answer with
source "error" and the raised message as error detail, nothing is written
to the cache, and the failing provider call was made exactly once (no
retry). -/
theorem C6_provider_error_surfaced_not_raised :
    (∀ (env : PipelineEnv) (st : PipelineState) (company question api_key e : String),
      RedisCache.get st.cache (get_cache_key company question) =
        (.ok none, { st.cache with cache_misses := st.cache.cache_misses + 1 }) →
      env.embed question = .error e →
      (process_query env st company question api_key).1 =
        { answer := errorAnswer, source := "error", error := some e } ∧
      (process_query env st company question api_key).2.cache.store = st.cache.store ∧
      (process_query env st company question api_key).2.embed_calls = st.embed_calls + 1 ∧
      (process_query env st company question api_key).2.generate_calls = st.generate_calls) ∧
    (∀ (env : PipelineEnv) (st : PipelineState) (company question api_key e : String)
        (emb : List ℚ) (m : RetrievalMatch) (rest : List RetrievalMatch),
      RedisCache.get st.cache (get_cache_key company question) =
        (.ok none, { st.cache with cache_misses := st.cache.cache_misses + 1 }) →
      env.embed question = .ok emb →
      env.vquery emb company = m :: rest →
      env.generate (build_context (m :: rest)) question = .error e →
      (process_query env st company question api_key).1 =
        { answer := errorAnswer, source := "error", error := some e } ∧
      (process_query env st company question api_key).2.cache.store = st.cache.store ∧
      (process_query env st company question api_key).2.generate_calls =
        st.generate_calls + 1) := by
  constructor
  · intro env st company question api_key e hget hemb
    rw [process_query_embed_raises env st company question api_key e hget hemb]
    exact ⟨rfl, rfl, rfl, rfl⟩
  · intro env st company question api_key e emb m rest hget hemb hv hgen
    rw [process_query_generate_raises env st company question api_key e emb m rest
      hget hemb hv hgen]
    exact ⟨rfl, rfl, rfl⟩

/-- C6 witness: a raising embedding call and a raising generation call on
the fresh state. -/
theorem C6_provider_error_surfaced_not_raised_witness :
    (envEmbedFail.embed "q" = .error "embed boom" ∧
     (process_query envEmbedFail state0 "Apple" "q" "k").1 =
       { answer := errorAnswer, source := "error", error := some "embed boom" } ∧
     (process_query envEmbedFail state0 "Apple" "q" "k").2.cache.store =
       state0.cache.store) ∧
    (envGenFail.generate (build_context [lowMatch]) "q" = .error "gen boom" ∧
     (process_query envGenFail state0 "Apple" "q" "k").1 =
       { answer := errorAnswer, source := "error", error := some "gen boom" } ∧
     (process_query envGenFail state0 "Apple" "q" "k").2.cache.store = state0.cache.store ∧
     (process_query envGenFail state0 "Apple" "q" "k").2.generate_calls =
       state0.generate_calls + 1) := by
  have h1 := C6_provider_error_surfaced_not_raised.1 envEmbedFail state0
    "Apple" "q" "k" "embed boom" rfl rfl
  have h2 := C6_provider_error_surfaced_not_raised.2 envGenFail state0
    "Apple" "q" "k" "gen boom" [] lowMatch [] rfl rfl rfl rfl
  exact ⟨⟨rfl, h1.1, h1.2.1⟩, ⟨rfl, h2.1, h2.2.1, h2.2.2⟩⟩

/-- C7: the freshness classifier scans the lower-cased question for the
fixed temporal-marker list by substring occurrence — true iff some marker
occurs — the list contains the markers named by the claim, the real-time
TTL class is the short one, and the cache write performed on the generated
path carries the TTL class selected by that classification. -/
theorem C7_freshness_selects_ttl_class :
    (∀ question : String, is_real_time_query question = true ↔
      ∃ indicator ∈ real_time_indicators, indicator.data <:+: (strLower question).data) ∧
    ("current" ∈ real_time_indicators ∧ "latest" ∈ real_time_indicators ∧
     "today" ∈ real_time_indicators ∧ "this quarter" ∈ real_time_indicators) ∧
    CACHE_TTL_REALTIME < CACHE_TTL_HISTORICAL ∧
    (∀ (env : PipelineEnv) (st : PipelineState) (company question api_key ans : String)
        (emb : List ℚ) (m : RetrievalMatch) (rest : List RetrievalMatch),
      RedisCache.get st.cache (get_cache_key company question) =
        (.ok none, { st.cache with cache_misses := st.cache.cache_misses + 1 }) →
      env.embed question = .ok emb →
      env.vquery emb company = m :: rest →
      env.generate (build_context (m :: rest)) question = .ok ans →
      st.cache.connected = true →
      st.cache.backend_set (get_cache_key company question)
        (if is_real_time_query question then CACHE_TTL_REALTIME else CACHE_TTL_HISTORICAL)
        ans = .ok () →
      (process_query env st company question api_key).2.cache.store = st.cache.store ++
        [(get_cache_key company question,
          if is_real_time_query question then CACHE_TTL_REALTIME else CACHE_TTL_HISTORICAL,
          ans)]) := by
  refine ⟨?_, by decide, by decide, ?_⟩
  · intro question
    simp [is_real_time_query, List.any_eq_true]
  · intro env st company question api_key ans emb m rest hget hemb hv hgen hconn hset
    rw [process_query_generated env st company question api_key ans emb m rest
      hget hemb hv hgen hconn]
    simp [RedisCache.setBody, hset]

/-- C7 witness: a question containing "CURRENT" is cached under the short
TTL; the same shape of question without a marker is cached under the long
TTL. -/
theorem C7_freshness_selects_ttl_class_witness :
    (is_real_time_query "What is the CURRENT price" = true ∧
     (process_query envLow state0 "Apple" "What is the CURRENT price" "k").2.cache.store =
       [(get_cache_key "Apple" "What is the CURRENT price", CACHE_TTL_REALTIME, "GEN")]) ∧
    (is_real_time_query "What was 2020 revenue" = false ∧
     (process_query envLow state0 "Apple" "What was 2020 revenue" "k").2.cache.store =
       [(get_cache_key "Apple" "What was 2020 revenue", CACHE_TTL_HISTORICAL, "GEN")]) := by
  have e1 : is_real_time_query "What is the CURRENT price" = true := by decide
  have e2 : is_real_time_query "What was 2020 revenue" = false := by decide
  have h1 := C7_freshness_selects_ttl_class.2.2.2 envLow state0
    "Apple" "What is the CURRENT price" "k" "GEN" [] lowMatch [] rfl rfl rfl rfl rfl rfl
  have h2 := C7_freshness_selects_ttl_class.2.2.2 envLow state0
    "Apple" "What was 2020 revenue" "k" "GEN" [] lowMatch [] rfl rfl rfl rfl rfl rfl
  rw [e1, if_pos rfl] at h1
  rw [e2] at h2
  refine ⟨⟨e1, ?_⟩, ⟨e2, ?_⟩⟩
  · rw [h1]; rfl
  · rw [h2]; rfl

end RAGFinance
